import Mathlib

/-!
# QHidDevice: the device session over the HID transport

A shallow embedding of `QHidDevicePrivate` (src/src/hidapi/qhiddevice_p.cpp), the
session object that owns the `hid_device*` handle, and of the facade `QHidDevice`
(src/src/hidapi/qhiddevice.cpp) in front of it, together with properties of them.

Conventions of the embedding.

* The HID transport (hidapi) is an external library.  Every call the session makes
  to it is appended to a trace of `Call` values, oldest first, and the value the
  library hands back is read from a `Transport`, a family of response functions
  that receive the trace of all earlier calls.  Any sequence of transport outcomes
  is the behaviour of some `Transport`.
* A pointer `hid_device*` is an `Option Nat`: `none` is `nullptr`, `some a` is the
  handle at address `a`.
* Bytes and wide characters are natural numbers; `QByteArray`, `QString` and
  `wchar_t` arrays are lists of them.
* A parameter of a C++ integer type is a `Nat` or `Int` holding a value of that
  type.  Conversions that the code performs between integer types are written out
  (`% 256`, `% 65536`, `% 2 ^ 64`).
* A member function takes the object and the trace and returns an `Outcome`: the
  returned value, the object after the call and the trace after the call.
* C++ overloads get distinct names: `open_path` is `open(QString)`, `open_ids` is
  `open(ushort, ushort, QString)`, `open_stored` is `open()`; `read_timeout` is
  `read(char*, qint64, int)`; `write_report` is `write(QByteArray, quint8)` and
  `write_bytes` is `write(QByteArray)`; the facade member `open(OpenMode)` is
  `open_mode`.  Constructors are named `ctor` and destructors `dtor`.
-/

namespace QHidApi

/-! ## Data model -/

/-- Pointer to a transport device handle: `none` is `nullptr`. -/
abbrev HidDevicePtr := Option Nat

/-- Byte sequence (`QByteArray`, `unsigned char` buffers). -/
abbrev QByteArray := List Nat

/-- Text (`QString`): a sequence of wide characters. -/
abbrev QString := List Nat

/-- Contents of a `wchar_t` array. -/
abbrev WCharArray := List Nat

/-- One node of the list returned by `hid_enumerate` (struct `hid_device_info` of
hidapi); the `next` pointer is the position in the list. -/
structure hid_device_info where
  path : List Nat
  vendor_id : Nat
  product_id : Nat
  serial_number : WCharArray
  release_number : Nat
  manufacturer_string : WCharArray
  product_string : WCharArray
  usage_page : Nat
  usage : Nat
  interface_number : Int
deriving DecidableEq, Repr

/-- Modelled from the spec: the enumeration record `QHidDeviceInfo`, declared in
qhiddeviceinfo.h, which is not among the sources.  The fields are those of the
DeviceDescriptor of the data model, under the names `enumerate` assigns to. -/
structure QHidDeviceInfo where
  path : QString
  vendorId : Nat
  productId : Nat
  manufacturerString : QString
  productString : QString
  serialNumber : QString
  releaseNumber : Nat
  usagePage : Nat
  usage : Nat
  interfaceNumber : Int
deriving DecidableEq, Repr

/-- A call into the transport library, with the arguments passed.  Output buffers
are not recorded, except for the first byte of the feature report buffer, which the
caller sets.  A pointer into the enumeration list is the list of nodes reachable
from it (`[]` is `nullptr`). -/
inductive Call where
  | hid_init
  | hid_exit
  | hid_enumerate (vendor_id product_id : Nat)
  | hid_free_enumeration (devs : List hid_device_info)
  | hid_open (vendor_id product_id : Nat) (serial_number : Option WCharArray)
  | hid_open_path (path : QByteArray)
  | hid_close (dev : HidDevicePtr)
  | hid_read (dev : HidDevicePtr) (length : Nat)
  | hid_read_timeout (dev : HidDevicePtr) (length : Nat) (milliseconds : Int)
  | hid_write (dev : HidDevicePtr) (data : QByteArray) (length : Nat)
  | hid_get_feature_report (dev : HidDevicePtr) (data0 : Nat) (length : Nat)
  | hid_send_feature_report (dev : HidDevicePtr) (data : QByteArray) (length : Nat)
  | hid_get_manufacturer_string (dev : HidDevicePtr) (maxlen : Nat)
  | hid_get_product_string (dev : HidDevicePtr) (maxlen : Nat)
  | hid_get_serial_number_string (dev : HidDevicePtr) (maxlen : Nat)
  | hid_get_indexed_string (dev : HidDevicePtr) (string_index : Int) (maxlen : Nat)
  | hid_set_nonblocking (dev : HidDevicePtr) (nonblock : Int)
  | hid_error (dev : HidDevicePtr)
deriving DecidableEq, Repr

/-- The responses of the transport library.  Each function receives the trace of
the calls made before this one, then the arguments of the call.  Where the library
fills a buffer, the response carries the contents of the buffer after the call. -/
structure Transport where
  hid_init : List Call → Int
  hid_exit : List Call → Int
  hid_enumerate : List Call → Nat → Nat → List hid_device_info
  hid_open : List Call → Nat → Nat → Option WCharArray → HidDevicePtr
  hid_open_path : List Call → QByteArray → HidDevicePtr
  hid_read : List Call → HidDevicePtr → Nat → Int × QByteArray
  hid_read_timeout : List Call → HidDevicePtr → Nat → Int → Int × QByteArray
  hid_write : List Call → HidDevicePtr → QByteArray → Nat → Int
  hid_get_feature_report : List Call → HidDevicePtr → Nat → Nat → Int × QByteArray
  hid_send_feature_report : List Call → HidDevicePtr → QByteArray → Nat → Int
  hid_get_manufacturer_string : List Call → HidDevicePtr → Nat → Int × WCharArray
  hid_get_product_string : List Call → HidDevicePtr → Nat → Int × WCharArray
  hid_get_serial_number_string : List Call → HidDevicePtr → Nat → Int × WCharArray
  hid_get_indexed_string : List Call → HidDevicePtr → Int → Nat → Int × WCharArray
  hid_set_nonblocking : List Call → HidDevicePtr → Int → Int
  hid_error : List Call → HidDevicePtr → Option WCharArray

/-- The session object (class `QHidDevicePrivate`, qhiddevice_p.h), without its
back pointer `q_ptr`. -/
structure QHidDevicePrivate where
  mVendorId : Nat
  mProductId : Nat
  mSerialNumber : QString
  mDeviceInfoList : List QHidDeviceInfo
  m_device : HidDevicePtr
deriving DecidableEq, Repr

/-- Result of a member function: returned value, object and trace after the call. -/
structure Outcome (α : Type) where
  value : α
  self : QHidDevicePrivate
  trace : List Call

/-- The constant `QHidDevicePrivate::MAX_STR`. -/
def MAX_STR : Nat := 255

/-- The conversion `QString::fromWCharArray(buf)` of a terminated array: the wide
characters before the first zero. -/
def fromWCharArray (buf : WCharArray) : QString :=
  buf.takeWhile (fun c => c ≠ 0)

namespace QHidDevicePrivate

/-! ## Operations of the session -/

/-- The member `manufacturerString()` (qhiddevice_p.cpp, lines 32 to 50). -/
def manufacturerString (T : Transport) (d : QHidDevicePrivate) (tr : List Call) :
    Outcome QString :=
  if d.m_device ≠ none then
    ⟨[], d, tr⟩
  else
    let r := T.hid_get_manufacturer_string tr d.m_device MAX_STR
    let tr1 := tr ++ [Call.hid_get_manufacturer_string d.m_device MAX_STR]
    if r.1 ≠ -1 then ⟨fromWCharArray r.2, d, tr1⟩ else ⟨[], d, tr1⟩

/-- The member `productString()` (lines 57 to 75). -/
def productString (T : Transport) (d : QHidDevicePrivate) (tr : List Call) :
    Outcome QString :=
  if d.m_device = none then
    ⟨[], d, tr⟩
  else
    let r := T.hid_get_product_string tr d.m_device MAX_STR
    let tr1 := tr ++ [Call.hid_get_product_string d.m_device MAX_STR]
    if r.1 ≠ -1 then ⟨fromWCharArray r.2, d, tr1⟩ else ⟨[], d, tr1⟩

/-- The member `serialNumberString()` (lines 82 to 100). -/
def serialNumberString (T : Transport) (d : QHidDevicePrivate) (tr : List Call) :
    Outcome QString :=
  if d.m_device = none then
    ⟨[], d, tr⟩
  else
    let r := T.hid_get_serial_number_string tr d.m_device MAX_STR
    let tr1 := tr ++ [Call.hid_get_serial_number_string d.m_device MAX_STR]
    if r.1 ≠ -1 then ⟨fromWCharArray r.2, d, tr1⟩ else ⟨[], d, tr1⟩

/-- The member `indexedString(int index)` (lines 109 to 127). -/
def indexedString (T : Transport) (d : QHidDevicePrivate) (tr : List Call) (index : Int) :
    Outcome QString :=
  if d.m_device = none then
    ⟨[], d, tr⟩
  else
    let r := T.hid_get_indexed_string tr d.m_device index MAX_STR
    let tr1 := tr ++ [Call.hid_get_indexed_string d.m_device index MAX_STR]
    if r.1 ≠ -1 then ⟨fromWCharArray r.2, d, tr1⟩ else ⟨[], d, tr1⟩

/-- The member `close()` (lines 206 to 211). -/
def close (d : QHidDevicePrivate) (tr : List Call) : Outcome Unit :=
  if d.m_device ≠ none then
    ⟨(), d, tr ++ [Call.hid_close d.m_device]⟩
  else
    ⟨(), d, tr⟩

/-- The member `read(char* data, qint64 maxSize)` (lines 249 to 260).  The value is
the returned count and the contents of `data` after the call. -/
def read (T : Transport) (d : QHidDevicePrivate) (tr : List Call)
    (data : QByteArray) (maxSize : Int) : Outcome (Int × QByteArray) :=
  let length := (maxSize % 2 ^ 64).toNat
  if d.m_device ≠ none then
    let r := T.hid_read tr d.m_device length
    ⟨(r.1, r.2), d, tr ++ [Call.hid_read d.m_device length]⟩
  else
    ⟨(0, data), d, tr⟩

/-- The member `read(char* data, qint64 maxSize, int milliseconds)` (lines 262 to
273). -/
def read_timeout (T : Transport) (d : QHidDevicePrivate) (tr : List Call)
    (data : QByteArray) (maxSize : Int) (milliseconds : Int) : Outcome (Int × QByteArray) :=
  let length := (maxSize % 2 ^ 64).toNat
  if d.m_device ≠ none then
    let r := T.hid_read_timeout tr d.m_device length milliseconds
    ⟨(r.1, r.2), d, tr ++ [Call.hid_read_timeout d.m_device length milliseconds]⟩
  else
    ⟨(0, data), d, tr⟩

/-- The member `featureReport(uint reportId)` (lines 320 to 335).  The buffer has
65 bytes, of which only the first is set before the call. -/
def featureReport (T : Transport) (d : QHidDevicePrivate) (tr : List Call)
    (reportId : Nat) : Outcome QByteArray :=
  if d.m_device ≠ none then
    let buf0 := reportId % 256
    let r := T.hid_get_feature_report tr d.m_device buf0 65
    let tr1 := tr ++ [Call.hid_get_feature_report d.m_device buf0 65]
    if r.1 > 0 then ⟨r.2.take r.1.toNat, d, tr1⟩ else ⟨[], d, tr1⟩
  else
    ⟨[], d, tr⟩

/-- The member `sendFeatureReport(quint8 reportId, QByteArray data)` (lines 350 to
363). -/
def sendFeatureReport (T : Transport) (d : QHidDevicePrivate) (tr : List Call)
    (reportId : Nat) (data : QByteArray) : Outcome Int :=
  if data.length > 64 then
    ⟨-1, d, tr⟩
  else if d.m_device ≠ none then
    let data1 := reportId :: data
    let rep := T.hid_send_feature_report tr d.m_device data1 data1.length
    ⟨rep, d, tr ++ [Call.hid_send_feature_report d.m_device data1 data1.length]⟩
  else
    ⟨-1, d, tr⟩

/-- The member `write(uint8_t* data, quint64 maxlen)` (lines 377 to 388); `data` is
the contents of the buffer. -/
def write (T : Transport) (d : QHidDevicePrivate) (tr : List Call)
    (data : QByteArray) (maxlen : Nat) : Outcome Int :=
  if d.m_device ≠ none then
    let length := maxlen % 2 ^ 64
    let rep := T.hid_write tr d.m_device data length
    ⟨rep, d, tr ++ [Call.hid_write d.m_device data length]⟩
  else
    ⟨-1, d, tr⟩

/-- The member `write(QByteArray data, quint8 reportNumber)` (lines 403 to 416). -/
def write_report (T : Transport) (d : QHidDevicePrivate) (tr : List Call)
    (data : QByteArray) (reportNumber : Nat) : Outcome Int :=
  if data.length > 64 then
    ⟨-1, d, tr⟩
  else if d.m_device ≠ none then
    let data1 := reportNumber :: data
    let rep := T.hid_write tr d.m_device data1 data1.length
    ⟨rep, d, tr ++ [Call.hid_write d.m_device data1 data1.length]⟩
  else
    ⟨-1, d, tr⟩

/-- The member `write(QByteArray data)` (lines 430 to 441). -/
def write_bytes (T : Transport) (d : QHidDevicePrivate) (tr : List Call)
    (data : QByteArray) : Outcome Int :=
  if data.length > 65 then
    ⟨-1, d, tr⟩
  else if d.m_device ≠ none then
    let rep := T.hid_write tr d.m_device data data.length
    ⟨rep, d, tr ++ [Call.hid_write d.m_device data data.length]⟩
  else
    ⟨-1, d, tr⟩

/-- The member `error()` (lines 448 to 462).  The transport returns a string or a
null pointer, which decodes to the empty text. -/
def error (T : Transport) (d : QHidDevicePrivate) (tr : List Call) : Outcome QString :=
  if d.m_device ≠ none then
    let errorString := T.hid_error tr d.m_device
    let r : QString :=
      match errorString with
      | none => []
      | some w => fromWCharArray w
    let tr1 := tr ++ [Call.hid_error d.m_device]
    if r = [] then ⟨[], d, tr1⟩ else ⟨r, d, tr1⟩
  else
    ⟨[], d, tr⟩

/-- The member `setBlocking()` (lines 474 to 481). -/
def setBlocking (T : Transport) (d : QHidDevicePrivate) (tr : List Call) : Outcome Bool :=
  if d.m_device ≠ none then
    let rep := T.hid_set_nonblocking tr d.m_device 1
    ⟨decide (rep ≠ 0), d, tr ++ [Call.hid_set_nonblocking d.m_device 1]⟩
  else
    ⟨false, d, tr⟩

/-- The member `setNonBlocking()` (lines 494 to 501). -/
def setNonBlocking (T : Transport) (d : QHidDevicePrivate) (tr : List Call) : Outcome Bool :=
  if d.m_device ≠ none then
    let rep := T.hid_set_nonblocking tr d.m_device 0
    ⟨decide (rep ≠ 0), d, tr ++ [Call.hid_set_nonblocking d.m_device 0]⟩
  else
    ⟨false, d, tr⟩

/-- The block that opens each of the three open members: a held handle is closed
and the member `m_device` reset. -/
def closeHeld (d : QHidDevicePrivate) (tr : List Call) : QHidDevicePrivate × List Call :=
  if d.m_device ≠ none then
    ({ d with m_device := none }, tr ++ [Call.hid_close d.m_device])
  else
    (d, tr)

/-- The member `open(QString path)` (lines 512 to 528).  The text codec
`QString::toLocal8Bit` of the Qt library is a parameter. -/
def open_path (T : Transport) (toLocal8Bit : QString → QByteArray)
    (d : QHidDevicePrivate) (tr : List Call) (path : QString) : Outcome Bool :=
  let s := closeHeld d tr
  let device := T.hid_open_path s.2 (toLocal8Bit path)
  let tr1 := s.2 ++ [Call.hid_open_path (toLocal8Bit path)]
  if device = none then
    ⟨false, s.1, tr1⟩
  else
    ⟨true, { s.1 with m_device := device }, tr1⟩

/-- The member `open(ushort vendorId, ushort productId, QString serialNumber)`
(lines 534 to 561).  A serial number that is not empty is passed as a fresh
`wchar_t` array with a terminating zero. -/
def open_ids (T : Transport) (d : QHidDevicePrivate) (tr : List Call)
    (vendorId productId : Nat) (serialNumber : QString) : Outcome Bool :=
  let s := closeHeld d tr
  let d1 : QHidDevicePrivate := { s.1 with mVendorId := vendorId, mProductId := productId }
  if serialNumber.isEmpty then
    let device := T.hid_open s.2 vendorId productId none
    let tr1 := s.2 ++ [Call.hid_open vendorId productId none]
    if device ≠ none then ⟨true, { d1 with m_device := device }, tr1⟩
    else ⟨false, d1, tr1⟩
  else
    let sn := serialNumber ++ [0]
    let device := T.hid_open s.2 vendorId productId (some sn)
    let tr1 := s.2 ++ [Call.hid_open vendorId productId (some sn)]
    if device ≠ none then ⟨true, { d1 with m_device := device }, tr1⟩
    else ⟨false, d1, tr1⟩

/-- The member `open()` (lines 568 to 600).  The members `mVendorId` and
`mProductId` are `quint32` and are narrowed to `unsigned short` in the call. -/
def open_stored (T : Transport) (d : QHidDevicePrivate) (tr : List Call) : Outcome Bool :=
  let s := closeHeld d tr
  let d1 := s.1
  if d1.mSerialNumber.isEmpty then
    let device := T.hid_open s.2 (d1.mVendorId % 65536) (d1.mProductId % 65536) none
    let tr1 := s.2 ++ [Call.hid_open (d1.mVendorId % 65536) (d1.mProductId % 65536) none]
    if device ≠ none then ⟨true, { d1 with m_device := device }, tr1⟩
    else if device = none then ⟨false, d1, tr1⟩
    else ⟨true, { d1 with m_device := device }, tr1⟩
  else
    let sn := d1.mSerialNumber ++ [0]
    let device := T.hid_open s.2 (d1.mVendorId % 65536) (d1.mProductId % 65536) (some sn)
    let tr1 := s.2 ++ [Call.hid_open (d1.mVendorId % 65536) (d1.mProductId % 65536) (some sn)]
    if device ≠ none then ⟨true, { d1 with m_device := device }, tr1⟩
    else if device = none then ⟨false, d1, tr1⟩
    else ⟨true, { d1 with m_device := device }, tr1⟩

end QHidDevicePrivate

/-! ## Enumeration, construction and destruction of the session -/

/-- What the build and the Qt library fix outside of the sources: the conversion
`QString(const char*)` of a C string to text, whether the platform exposes HID
usage tables (`Q_OS_WIN32` or `Q_OS_MAC`), and the default constructed
`QHidDeviceInfo`, whose class is declared in qhiddeviceinfo.h. -/
structure Platform where
  fromChars : QByteArray → QString
  usageTables : Bool
  defaultInfo : QHidDeviceInfo

namespace QHidDevicePrivate

/-- The body of the loop of `enumerate` (lines 161 to 174): the record built from
the node `info`. -/
def enumerateRecord (P : Platform) (info : hid_device_info) : QHidDeviceInfo :=
  let i := P.defaultInfo
  let i := { i with path := P.fromChars info.path }
  let i := { i with vendorId := info.vendor_id }
  let i := { i with manufacturerString := fromWCharArray info.manufacturer_string }
  let i := { i with productId := info.product_id }
  let i := { i with productString := fromWCharArray info.product_string }
  let i := { i with releaseNumber := info.release_number }
  let i := { i with serialNumber := fromWCharArray info.serial_number }
  let i := if P.usageTables then
    { i with usagePage := info.usage_page, usage := info.usage } else i
  { i with interfaceNumber := info.interface_number }

/-- The loop of `enumerate` (lines 160 to 176).  The first argument is the pointer
`info`, the second the list built so far; the result is the list and the value of
`info` when the loop ends. -/
def enumerateLoop (P : Platform) :
    List hid_device_info → List QHidDeviceInfo → List QHidDeviceInfo × List hid_device_info
  | [], deviceInfoList => (deviceInfoList, [])
  | info :: next, deviceInfoList =>
      enumerateLoop P next (deviceInfoList ++ [enumerateRecord P info])

/-- The static member `enumerate(ushort vendorId, ushort productId)` (lines 155 to
181): the list of records and the trace after the call. -/
def enumerate (P : Platform) (T : Transport) (tr : List Call) (vendorId productId : Nat) :
    List QHidDeviceInfo × List Call :=
  let info := T.hid_enumerate tr vendorId productId
  let tr1 := tr ++ [Call.hid_enumerate vendorId productId]
  let r := enumerateLoop P info []
  (r.1, tr1 ++ [Call.hid_free_enumeration r.2])

/-- The constructor `QHidDevicePrivate(ushort vendorId, ushort productId,
QHidDevice *parent)` (lines 11 to 18). -/
def ctor (P : Platform) (T : Transport) (tr : List Call) (vendorId productId : Nat) :
    QHidDevicePrivate × List Call :=
  let e := enumerate P T tr vendorId productId
  ({ mVendorId := vendorId, mProductId := productId, mSerialNumber := [],
     mDeviceInfoList := e.1, m_device := none }, e.2)

/-- The destructor of `QHidDevicePrivate` (lines 20 to 25): the trace after it. -/
def dtor (d : QHidDevicePrivate) (tr : List Call) : List Call :=
  if d.m_device ≠ none then tr ++ [Call.hid_close d.m_device] else tr

end QHidDevicePrivate

/-! ## The facade

The class `QHidDevice` (src/src/hidapi/qhiddevice.cpp) derives from the Qt class
`QIODevice`, of which the embedding keeps the open mode, and holds the session
through the raw pointer `d_ptr`. -/

/-- The facade object: the session behind `d_ptr` and the open mode of the
`QIODevice` base. -/
structure QHidDevice where
  d_ptr : QHidDevicePrivate
  openMode : Nat
deriving DecidableEq, Repr

/-- Result of a member function of the facade. -/
structure FacadeOutcome (α : Type) where
  value : α
  self : QHidDevice
  trace : List Call

/-- Result of the static members `init` and `exit`: the returned status, the file
static `is_init` of qhiddevice.cpp and the trace after the call. -/
structure StaticOutcome where
  value : Int
  is_init : Bool
  trace : List Call
deriving DecidableEq, Repr

namespace QHidDevice

/-- The flag `QIODevice::NotOpen` of Qt. -/
def NotOpen : Nat := 0

/-- The flag `QIODevice::ReadOnly` of Qt. -/
def ReadOnly : Nat := 1

/-- The flag `QIODevice::WriteOnly` of Qt. -/
def WriteOnly : Nat := 2

/-- The flag `QIODevice::ReadWrite` of Qt, `ReadOnly | WriteOnly`. -/
def ReadWrite : Nat := 3

/-- The member `QIODevice::setOpenMode` of Qt. -/
def setOpenMode (q : QHidDevice) (mode : Nat) : QHidDevice :=
  { q with openMode := mode }

/-- The static member `init()` (lines 371 to 380).  The test of `is_init` is
commented out, so the block always runs. -/
def init (T : Transport) (_is_init : Bool) (tr : List Call) : StaticOutcome :=
  let res := T.hid_init tr
  ⟨res, true, tr ++ [Call.hid_init]⟩

/-- The static member `exit()` (lines 390 to 397). -/
def exit (T : Transport) (is_init : Bool) (tr : List Call) : StaticOutcome :=
  if is_init then
    let res := T.hid_exit tr
    ⟨res, is_init, tr ++ [Call.hid_exit]⟩
  else
    ⟨0, is_init, tr⟩

/-- The constructor `QHidDevice(QObject *parent)` (lines 39 to 44): the object,
the static `is_init` and the trace after it. -/
def ctor (P : Platform) (T : Transport) (is_init : Bool) (tr : List Call) :
    QHidDevice × Bool × List Call :=
  let s := QHidDevicePrivate.ctor P T tr 0 0
  let i := init T is_init s.2
  ({ d_ptr := s.1, openMode := NotOpen }, i.is_init, i.trace)

/-- The constructor `QHidDevice(ushort vendorId, QObject *parent)` (lines 53 to
58). -/
def ctor_vendor (P : Platform) (T : Transport) (tr : List Call) (vendorId : Nat) :
    QHidDevice × List Call :=
  let s := QHidDevicePrivate.ctor P T tr vendorId 0
  ({ d_ptr := s.1, openMode := NotOpen }, s.2)

/-- The constructor `QHidDevice(ushort vendorId, ushort productId, QObject
*parent)` (lines 67 to 71). -/
def ctor_vendor_product (P : Platform) (T : Transport) (tr : List Call)
    (vendorId productId : Nat) : QHidDevice × List Call :=
  let s := QHidDevicePrivate.ctor P T tr vendorId productId
  ({ d_ptr := s.1, openMode := NotOpen }, s.2)

/-- The destructor of `QHidDevice` (lines 73 to 74): its body is empty and the raw
pointer `d_ptr` is not deleted, so the destructor of the session does not run. -/
def dtor (_q : QHidDevice) (tr : List Call) : List Call :=
  tr

/-- The static member `enumerate` (lines 144 to 147). -/
def enumerate (P : Platform) (T : Transport) (tr : List Call) (vendorId productId : Nat) :
    List QHidDeviceInfo × List Call :=
  QHidDevicePrivate.enumerate P T tr vendorId productId

/-- The member `open(ushort vendorId, ushort productId, QString serialNumber)`
(lines 161 to 167). -/
def open_ids (T : Transport) (q : QHidDevice) (tr : List Call)
    (vendorId productId : Nat) (serialNumber : QString) : FacadeOutcome Bool :=
  let o := QHidDevicePrivate.open_ids T q.d_ptr tr vendorId productId serialNumber
  let q1 : QHidDevice := { q with d_ptr := o.self }
  if o.value then ⟨false, setOpenMode q1 ReadWrite, o.trace⟩
  else ⟨false, q1, o.trace⟩

/-- The member `open(QString path)` (lines 178 to 184). -/
def open_path (T : Transport) (toLocal8Bit : QString → QByteArray) (q : QHidDevice)
    (tr : List Call) (path : QString) : FacadeOutcome Bool :=
  let o := QHidDevicePrivate.open_path T toLocal8Bit q.d_ptr tr path
  let q1 : QHidDevice := { q with d_ptr := o.self }
  if o.value then ⟨false, setOpenMode q1 ReadWrite, o.trace⟩
  else ⟨false, q1, o.trace⟩

/-- The member `open(OpenMode mode)` (lines 191 to 197). -/
def open_mode (T : Transport) (q : QHidDevice) (tr : List Call) (mode : Nat) :
    FacadeOutcome Bool :=
  let o := QHidDevicePrivate.open_stored T q.d_ptr tr
  let q1 : QHidDevice := { q with d_ptr := o.self }
  if o.value then ⟨false, setOpenMode q1 mode, o.trace⟩
  else ⟨false, q1, o.trace⟩

/-- The member `close()` (lines 203 to 207). -/
def close (q : QHidDevice) (tr : List Call) : FacadeOutcome Unit :=
  let o := QHidDevicePrivate.close q.d_ptr tr
  let q1 : QHidDevice := { q with d_ptr := o.self }
  ⟨(), setOpenMode q1 NotOpen, o.trace⟩

/-- The member `setBlocking()` (lines 341 to 344). -/
def setBlocking (T : Transport) (q : QHidDevice) (tr : List Call) : FacadeOutcome Bool :=
  let o := QHidDevicePrivate.setBlocking T q.d_ptr tr
  ⟨o.value, { q with d_ptr := o.self }, o.trace⟩

/-- The member `setNonBlocking()` (lines 356 to 359). -/
def setNonBlocking (T : Transport) (q : QHidDevice) (tr : List Call) : FacadeOutcome Bool :=
  let o := QHidDevicePrivate.setNonBlocking T q.d_ptr tr
  ⟨o.value, { q with d_ptr := o.self }, o.trace⟩

end QHidDevice

/-! ## Sequences of facade calls -/

/-- A call of one of the facade members that open or close the device. -/
inductive FacadeOp where
  | open_ids (vendorId productId : Nat) (serialNumber : QString)
  | open_path (path : QString)
  | open_mode (mode : Nat)
  | close
deriving DecidableEq, Repr

/-- The facade and the trace after one call. -/
def facadeStep (T : Transport) (toLocal8Bit : QString → QByteArray)
    (s : QHidDevice × List Call) (op : FacadeOp) : QHidDevice × List Call :=
  match op with
  | FacadeOp.open_ids vendorId productId serialNumber =>
      let o := QHidDevice.open_ids T s.1 s.2 vendorId productId serialNumber
      (o.self, o.trace)
  | FacadeOp.open_path path =>
      let o := QHidDevice.open_path T toLocal8Bit s.1 s.2 path
      (o.self, o.trace)
  | FacadeOp.open_mode mode =>
      let o := QHidDevice.open_mode T s.1 s.2 mode
      (o.self, o.trace)
  | FacadeOp.close =>
      let o := QHidDevice.close s.1 s.2
      (o.self, o.trace)

/-- The facade and the trace after a sequence of calls, first call first. -/
def facadeRun (T : Transport) (toLocal8Bit : QString → QByteArray)
    (s : QHidDevice × List Call) : List FacadeOp → QHidDevice × List Call
  | [] => s
  | op :: ops => facadeRun T toLocal8Bit (facadeStep T toLocal8Bit s op) ops

/-- The success flag of the session open that a facade call delegates to; `true`
for close. -/
def delegatedSuccess (T : Transport) (toLocal8Bit : QString → QByteArray)
    (s : QHidDevice × List Call) (op : FacadeOp) : Bool :=
  match op with
  | FacadeOp.open_ids vendorId productId serialNumber =>
      (QHidDevicePrivate.open_ids T s.1.d_ptr s.2 vendorId productId serialNumber).value
  | FacadeOp.open_path path =>
      (QHidDevicePrivate.open_path T toLocal8Bit s.1.d_ptr s.2 path).value
  | FacadeOp.open_mode _ => (QHidDevicePrivate.open_stored T s.1.d_ptr s.2).value
  | FacadeOp.close => true

/-- No call of the sequence is an open that fails while the stream state of the
facade is open (different from NotOpen). -/
def noFailedOpenWhileOpen (T : Transport) (toLocal8Bit : QString → QByteArray)
    (s : QHidDevice × List Call) : List FacadeOp → Bool
  | [] => true
  | op :: ops =>
      (decide (s.1.openMode = QHidDevice.NotOpen) || delegatedSuccess T toLocal8Bit s op) &&
        noFailedOpenWhileOpen T toLocal8Bit (facadeStep T toLocal8Bit s op) ops

/-- The transport calls that releasing a held handle takes: one hid_close on the
handle when one is held, none when the pointer is null. -/
def closeCalls (dev : HidDevicePtr) : List Call :=
  match dev with
  | none => []
  | some a => [Call.hid_close (some a)]

/-! ## A transport double and sample sessions

Concrete inputs on which the operations are evaluated. -/

/-- A transport double on which every call succeeds.  An open call returns a handle
whose address is one more than the number of earlier calls, so that successive
opens return distinct handles; a write or send reports the full length; a
feature report answers three bytes; every string getter writes the text ACME. -/
def testDouble : Transport where
  hid_init := fun _ => 0
  hid_exit := fun _ => 0
  hid_enumerate := fun _ _ _ => []
  hid_open := fun tr _ _ _ => some (tr.length + 1)
  hid_open_path := fun tr _ => some (tr.length + 1)
  hid_read := fun _ _ _ => (0, [])
  hid_read_timeout := fun _ _ _ _ => (0, [])
  hid_write := fun _ _ _ length => length
  hid_get_feature_report := fun _ _ data0 _ => (3, data0 :: 10 :: 20 :: List.replicate 62 0)
  hid_send_feature_report := fun _ _ _ length => length
  hid_get_manufacturer_string := fun _ _ _ => (0, [65, 67, 77, 69, 0])
  hid_get_product_string := fun _ _ _ => (0, [65, 67, 77, 69, 0])
  hid_get_serial_number_string := fun _ _ _ => (0, [65, 67, 77, 69, 0])
  hid_get_indexed_string := fun _ _ _ _ => (0, [65, 67, 77, 69, 0])
  hid_set_nonblocking := fun _ _ _ => 0
  hid_error := fun _ _ => none

/-- A session that holds no handle and has the identity 0x4d8, 0xf1fa and no
serial number. -/
def closedSession : QHidDevicePrivate :=
  { mVendorId := 0x4d8, mProductId := 0xf1fa, mSerialNumber := [],
    mDeviceInfoList := [], m_device := none }

/-- A session that holds the handle at address 7. -/
def openSession : QHidDevicePrivate :=
  { mVendorId := 0x4d8, mProductId := 0xf1fa, mSerialNumber := [],
    mDeviceInfoList := [], m_device := some 7 }

/-- The scenario of the spec, step 1: open() on the closed session. -/
def scenarioOpen : Outcome Bool :=
  QHidDevicePrivate.open_stored testDouble closedSession []

/-- Step 2: a first write of three bytes. -/
def scenarioWrite : Outcome Int :=
  QHidDevicePrivate.write testDouble scenarioOpen.self scenarioOpen.trace [0, 1, 2] 3

/-- Step 3: close(). -/
def scenarioClose : Outcome Unit :=
  QHidDevicePrivate.close scenarioWrite.self scenarioWrite.trace

/-- Step 4: the second write, after close(). -/
def scenarioWriteAgain : Outcome Int :=
  QHidDevicePrivate.write testDouble scenarioClose.self scenarioClose.trace [0, 1, 2] 3

/-- Step 4, alternative: a second close() after close(). -/
def scenarioCloseAgain : Outcome Unit :=
  QHidDevicePrivate.close scenarioClose.self scenarioClose.trace

/-- A report buffer of 66 bytes: the report ID 0 and a payload of 65 bytes. -/
def oversizedReport : QByteArray := List.replicate 66 0

/-- The serial number SN as text. -/
def serialSN : QString := [83, 78]

/-- The scenario of the identity: open(0x1234, 0x5678, SN) on a session with the
identity 0x4d8, 0xf1fa and no serial number. -/
def identityOpen : Outcome Bool :=
  QHidDevicePrivate.open_ids testDouble closedSession [] 0x1234 0x5678 serialSN

/-- The scenario of the identity, continued: the open() that follows. -/
def identityReopen : Outcome Bool :=
  QHidDevicePrivate.open_stored testDouble identityOpen.self identityOpen.trace

/-- A platform without usage tables, whose C strings are read as they are and whose
default record is all empty. -/
def samplePlatform : Platform :=
  { fromChars := id, usageTables := false,
    defaultInfo :=
      { path := [], vendorId := 0, productId := 0, manufacturerString := [],
        productString := [], serialNumber := [], releaseNumber := 0, usagePage := 0,
        usage := 0, interfaceNumber := 0 } }

/-- A node of an enumeration list: the device 0x4d8, 0xf1fa at the path /a. -/
def sampleNode : hid_device_info :=
  { path := [47, 97], vendor_id := 0x4d8, product_id := 0xf1fa,
    serial_number := [83, 78, 0], release_number := 0x100,
    manufacturer_string := [65, 67, 77, 69, 0], product_string := [80, 0],
    usage_page := 0, usage := 0, interface_number := -1 }

/-- The transport double with one device attached: every enumeration returns the
list of the single node `sampleNode`. -/
def enumDouble : Transport :=
  { testDouble with hid_enumerate := fun _ _ _ => [sampleNode] }

/-- The transport double on which setting the blocking mode fails with -1. -/
def errorDouble : Transport :=
  { testDouble with hid_set_nonblocking := fun _ _ _ => -1 }

/-- The transport double on which only the path /a can be opened, as handle 1. -/
def pathDouble : Transport :=
  { testDouble with hid_open_path := fun _ path => if path = [47, 97] then some 1 else none }

/-- A session constructed with vendor 0 and product 0 on the transport double, with
the trace of its construction. -/
def anonymousSession : QHidDevicePrivate × List Call :=
  QHidDevicePrivate.ctor samplePlatform testDouble [] 0 0

/-- The open() that follows the construction of `anonymousSession`. -/
def anonymousOpen : Outcome Bool :=
  QHidDevicePrivate.open_stored testDouble anonymousSession.1 anonymousSession.2

/-- A facade constructed for the device 0x4d8, 0xf1fa on the transport double, with
the trace of its construction. -/
def sampleFacade : QHidDevice × List Call :=
  QHidDevice.ctor_vendor_product samplePlatform testDouble [] 0x4d8 0xf1fa

/-- The facade call open(/a) on `sampleFacade`. -/
def facadeOpenPath : FacadeOutcome Bool :=
  QHidDevice.open_path testDouble id sampleFacade.1 sampleFacade.2 [47, 97]

/-- The facade call open(ReadOnly) on `sampleFacade`. -/
def facadeOpenReadOnly : FacadeOutcome Bool :=
  QHidDevice.open_mode testDouble sampleFacade.1 sampleFacade.2 QHidDevice.ReadOnly

/-- Two calls of init() in succession, the static `is_init` being false before. -/
def initTwice : StaticOutcome :=
  QHidDevice.init testDouble (QHidDevice.init testDouble false []).is_init
    (QHidDevice.init testDouble false []).trace

/-- A facade constructed on `pathDouble`, then open(/a), which succeeds, then
open(/b), which fails. -/
def failedReopen : QHidDevice × List Call :=
  facadeRun pathDouble id
    (QHidDevice.ctor_vendor_product samplePlatform pathDouble [] 0x4d8 0xf1fa)
    [FacadeOp.open_path [47, 97], FacadeOp.open_path [47, 98]]

/-- The facade call open(/a) on `sampleFacade`, followed by the destruction of the
facade: the trace at the end. -/
def facadeTeardown : List Call :=
  QHidDevice.dtor facadeOpenPath.self facadeOpenPath.trace

/-- The calls hid_close of a trace. -/
def closeCallsOf (tr : List Call) : List Call :=
  tr.filter (fun c => match c with
    | Call.hid_close _ => true
    | _ => false)

/-- A sequence of facade calls: open(/a), close(), open(ReadOnly). -/
def sampleOps : List FacadeOp :=
  [FacadeOp.open_path [47, 97], FacadeOp.close, FacadeOp.open_mode QHidDevice.ReadOnly]

/-! ## Sequences of session calls that set no identity -/

/-- A call of a member of the session other than the open by identity
`open(ushort, ushort, QString)`. -/
inductive SessionOp where
  | open_path (path : QString)
  | open_stored
  | close
  | read (data : QByteArray) (maxSize : Int)
  | read_timeout (data : QByteArray) (maxSize : Int) (milliseconds : Int)
  | write (data : QByteArray) (maxlen : Nat)
  | write_report (data : QByteArray) (reportNumber : Nat)
  | write_bytes (data : QByteArray)
  | featureReport (reportId : Nat)
  | sendFeatureReport (reportId : Nat) (data : QByteArray)
  | manufacturerString
  | productString
  | serialNumberString
  | indexedString (index : Int)
  | error
  | setBlocking
  | setNonBlocking
deriving DecidableEq, Repr

/-- The session and the trace after one call. -/
def sessionStep (T : Transport) (toLocal8Bit : QString → QByteArray)
    (s : QHidDevicePrivate × List Call) (op : SessionOp) : QHidDevicePrivate × List Call :=
  match op with
  | SessionOp.open_path path =>
      let o := QHidDevicePrivate.open_path T toLocal8Bit s.1 s.2 path
      (o.self, o.trace)
  | SessionOp.open_stored =>
      let o := QHidDevicePrivate.open_stored T s.1 s.2
      (o.self, o.trace)
  | SessionOp.close =>
      let o := QHidDevicePrivate.close s.1 s.2
      (o.self, o.trace)
  | SessionOp.read data maxSize =>
      let o := QHidDevicePrivate.read T s.1 s.2 data maxSize
      (o.self, o.trace)
  | SessionOp.read_timeout data maxSize milliseconds =>
      let o := QHidDevicePrivate.read_timeout T s.1 s.2 data maxSize milliseconds
      (o.self, o.trace)
  | SessionOp.write data maxlen =>
      let o := QHidDevicePrivate.write T s.1 s.2 data maxlen
      (o.self, o.trace)
  | SessionOp.write_report data reportNumber =>
      let o := QHidDevicePrivate.write_report T s.1 s.2 data reportNumber
      (o.self, o.trace)
  | SessionOp.write_bytes data =>
      let o := QHidDevicePrivate.write_bytes T s.1 s.2 data
      (o.self, o.trace)
  | SessionOp.featureReport reportId =>
      let o := QHidDevicePrivate.featureReport T s.1 s.2 reportId
      (o.self, o.trace)
  | SessionOp.sendFeatureReport reportId data =>
      let o := QHidDevicePrivate.sendFeatureReport T s.1 s.2 reportId data
      (o.self, o.trace)
  | SessionOp.manufacturerString =>
      let o := QHidDevicePrivate.manufacturerString T s.1 s.2
      (o.self, o.trace)
  | SessionOp.productString =>
      let o := QHidDevicePrivate.productString T s.1 s.2
      (o.self, o.trace)
  | SessionOp.serialNumberString =>
      let o := QHidDevicePrivate.serialNumberString T s.1 s.2
      (o.self, o.trace)
  | SessionOp.indexedString index =>
      let o := QHidDevicePrivate.indexedString T s.1 s.2 index
      (o.self, o.trace)
  | SessionOp.error =>
      let o := QHidDevicePrivate.error T s.1 s.2
      (o.self, o.trace)
  | SessionOp.setBlocking =>
      let o := QHidDevicePrivate.setBlocking T s.1 s.2
      (o.self, o.trace)
  | SessionOp.setNonBlocking =>
      let o := QHidDevicePrivate.setNonBlocking T s.1 s.2
      (o.self, o.trace)

/-- The session and the trace after a sequence of calls, first call first. -/
def sessionRun (T : Transport) (toLocal8Bit : QString → QByteArray)
    (s : QHidDevicePrivate × List Call) : List SessionOp → QHidDevicePrivate × List Call
  | [] => s
  | op :: ops => sessionRun T toLocal8Bit (sessionStep T toLocal8Bit s op) ops

/-- A session constructed with vendor 0 and product 0 on the transport double,
then opened by the path /a: the session holds the handle 3. -/
def anonymousOpenedByPath : QHidDevicePrivate × List Call :=
  sessionRun testDouble id anonymousSession [SessionOp.open_path [47, 97]]

/-! ## Properties -/

/-- C1, evaluated on the code: the sequence open(), write, close(), write of the
spec, on the transport double.  The member close() calls hid_close but does not
reset m_device, so after close() the session still holds the handle 1 that open()
obtained; the second write passes that closed handle to hid_write and returns the
transport count 3 instead of -1, and a second close() calls hid_close on the same
handle again. -/
theorem close_leaves_stale_handle :
    scenarioOpen.value = true ∧ scenarioOpen.self.m_device = some 1 ∧
    scenarioClose.self.m_device = some 1 ∧
    scenarioClose.trace =
      [Call.hid_open 0x4d8 0xf1fa none, Call.hid_write (some 1) [0, 1, 2] 3,
       Call.hid_close (some 1)] ∧
    scenarioWriteAgain.value = 3 ∧
    scenarioWriteAgain.trace =
      scenarioClose.trace ++ [Call.hid_write (some 1) [0, 1, 2] 3] ∧
    scenarioCloseAgain.trace = scenarioClose.trace ++ [Call.hid_close (some 1)] := by
  decide

/-- C2: on a session that holds no handle, for all arguments, both reads return 0
and leave the buffer as it was, featureReport returns the empty byte sequence,
error returns the empty text, write and sendFeatureReport return -1, setBlocking
and setNonBlocking return false; each call leaves the session and the trace of
transport calls unchanged. -/
theorem no_handle_no_transport (T : Transport) (d : QHidDevicePrivate) (tr : List Call)
    (h : d.m_device = none) (data : QByteArray) (maxSize : Int) (milliseconds : Int)
    (reportId : Nat) (payload : QByteArray) (maxlen : Nat) :
    QHidDevicePrivate.read T d tr data maxSize = ⟨(0, data), d, tr⟩ ∧
    QHidDevicePrivate.read_timeout T d tr data maxSize milliseconds = ⟨(0, data), d, tr⟩ ∧
    QHidDevicePrivate.featureReport T d tr reportId = ⟨[], d, tr⟩ ∧
    QHidDevicePrivate.error T d tr = ⟨[], d, tr⟩ ∧
    QHidDevicePrivate.write T d tr data maxlen = ⟨-1, d, tr⟩ ∧
    QHidDevicePrivate.sendFeatureReport T d tr reportId payload = ⟨-1, d, tr⟩ ∧
    QHidDevicePrivate.setBlocking T d tr = ⟨false, d, tr⟩ ∧
    QHidDevicePrivate.setNonBlocking T d tr = ⟨false, d, tr⟩ := by
  simp [QHidDevicePrivate.read, QHidDevicePrivate.read_timeout,
    QHidDevicePrivate.featureReport, QHidDevicePrivate.error, QHidDevicePrivate.write,
    QHidDevicePrivate.sendFeatureReport, QHidDevicePrivate.setBlocking,
    QHidDevicePrivate.setNonBlocking, h]

/-- Witness of C2: the closed sample session on the transport double. -/
theorem no_handle_no_transport_witness :
    closedSession.m_device = none ∧
    QHidDevicePrivate.read testDouble closedSession [] [1, 2] 2 =
      ⟨(0, [1, 2]), closedSession, []⟩ ∧
    QHidDevicePrivate.write testDouble closedSession [] [1, 2] 2 = ⟨-1, closedSession, []⟩ :=
  ⟨rfl,
   (no_handle_no_transport testDouble closedSession [] rfl [1, 2] 2 (-1) 5 [9] 2).1,
   (no_handle_no_transport testDouble closedSession [] rfl [1, 2] 2 (-1) 5 [9] 2).2.2.2.2.1⟩

/-- C3: each of the three open members, from every session state, first makes one
hid_close call on the held handle if there is one (none otherwise) and then one
transport open call; afterwards the session holds exactly the pointer the transport
returned and the result is true when that pointer is a handle and false when it is
null, in which case the session holds no handle.  Hence, on a session without a
handle, an open(path) that obtains the handle h1 followed by a second open(path)
issues the calls open, close of h1, open. -/
theorem open_closes_then_opens (T : Transport) (toLocal8Bit : QString → QByteArray)
    (d : QHidDevicePrivate) (tr : List Call) (path path2 : QString)
    (vendorId productId : Nat) (serialNumber : QString) (h1 : Nat) :
    ((QHidDevicePrivate.open_path T toLocal8Bit d tr path).trace =
        tr ++ closeCalls d.m_device ++ [Call.hid_open_path (toLocal8Bit path)] ∧
      (QHidDevicePrivate.open_path T toLocal8Bit d tr path).self.m_device =
        T.hid_open_path (tr ++ closeCalls d.m_device) (toLocal8Bit path) ∧
      (QHidDevicePrivate.open_path T toLocal8Bit d tr path).value =
        (T.hid_open_path (tr ++ closeCalls d.m_device) (toLocal8Bit path)).isSome) ∧
    ((QHidDevicePrivate.open_ids T d tr vendorId productId serialNumber).trace =
        tr ++ closeCalls d.m_device ++
          [Call.hid_open vendorId productId
            (if serialNumber = [] then none else some (serialNumber ++ [0]))] ∧
      (QHidDevicePrivate.open_ids T d tr vendorId productId serialNumber).self.m_device =
        T.hid_open (tr ++ closeCalls d.m_device) vendorId productId
          (if serialNumber = [] then none else some (serialNumber ++ [0])) ∧
      (QHidDevicePrivate.open_ids T d tr vendorId productId serialNumber).value =
        (T.hid_open (tr ++ closeCalls d.m_device) vendorId productId
          (if serialNumber = [] then none else some (serialNumber ++ [0]))).isSome) ∧
    ((QHidDevicePrivate.open_stored T d tr).trace =
        tr ++ closeCalls d.m_device ++
          [Call.hid_open (d.mVendorId % 65536) (d.mProductId % 65536)
            (if d.mSerialNumber = [] then none else some (d.mSerialNumber ++ [0]))] ∧
      (QHidDevicePrivate.open_stored T d tr).self.m_device =
        T.hid_open (tr ++ closeCalls d.m_device) (d.mVendorId % 65536) (d.mProductId % 65536)
          (if d.mSerialNumber = [] then none else some (d.mSerialNumber ++ [0])) ∧
      (QHidDevicePrivate.open_stored T d tr).value =
        (T.hid_open (tr ++ closeCalls d.m_device) (d.mVendorId % 65536)
          (d.mProductId % 65536)
          (if d.mSerialNumber = [] then none else some (d.mSerialNumber ++ [0]))).isSome) ∧
    (d.m_device = none → T.hid_open_path tr (toLocal8Bit path) = some h1 →
      (QHidDevicePrivate.open_path T toLocal8Bit
          (QHidDevicePrivate.open_path T toLocal8Bit d tr path).self
          (QHidDevicePrivate.open_path T toLocal8Bit d tr path).trace path2).trace =
        tr ++ [Call.hid_open_path (toLocal8Bit path), Call.hid_close (some h1),
               Call.hid_open_path (toLocal8Bit path2)]) := by
  refine ⟨?_, ?_, ?_, ?_⟩
  · cases hd : d.m_device <;>
      simp [QHidDevicePrivate.open_path, QHidDevicePrivate.closeHeld, closeCalls, hd] <;>
      generalize T.hid_open_path _ _ = r <;> cases r <;> simp [hd]
  · cases hd : d.m_device <;> cases hs : serialNumber <;>
      simp [QHidDevicePrivate.open_ids, QHidDevicePrivate.closeHeld, closeCalls, hd] <;>
      generalize T.hid_open _ _ _ _ = r <;> cases r <;> simp [hd]
  · cases hd : d.m_device <;> cases hs : d.mSerialNumber <;>
      simp [QHidDevicePrivate.open_stored, QHidDevicePrivate.closeHeld, closeCalls, hd, hs] <;>
      generalize T.hid_open _ _ _ _ = r <;> cases r <;> simp [hd]
  · intro hd hr
    simp [QHidDevicePrivate.open_path, QHidDevicePrivate.closeHeld, hd, hr]
    generalize T.hid_open_path _ _ = r
    cases r <;> simp

/-- Witness of C3: two successive open(path) calls on the closed sample session,
on the transport double, whose first open returns the handle 1. -/
theorem open_closes_then_opens_witness :
    closedSession.m_device = none ∧
    testDouble.hid_open_path [] [47, 97] = some 1 ∧
    (QHidDevicePrivate.open_path testDouble id
        (QHidDevicePrivate.open_path testDouble id closedSession [] [47, 97]).self
        (QHidDevicePrivate.open_path testDouble id closedSession [] [47, 97]).trace
        [47, 98]).trace =
      [] ++ [Call.hid_open_path [47, 97], Call.hid_close (some 1),
             Call.hid_open_path [47, 98]] :=
  ⟨rfl, rfl,
   (open_closes_then_opens testDouble id closedSession [] [47, 97] [47, 98] 1 2 [] 1).2.2.2
     rfl rfl⟩

/-- C4: in every session state, a payload longer than 64 bytes makes
sendFeatureReport return -1 and leaves the session and the trace of transport
calls unchanged. -/
theorem sendFeatureReport_rejects_oversized (T : Transport) (d : QHidDevicePrivate)
    (tr : List Call) (reportId : Nat) (data : QByteArray) (h : data.length > 64) :
    QHidDevicePrivate.sendFeatureReport T d tr reportId data = ⟨-1, d, tr⟩ := by
  simp [QHidDevicePrivate.sendFeatureReport, h]

/-- Witness of C4: a payload of 65 bytes on the open sample session. -/
theorem sendFeatureReport_rejects_oversized_witness :
    (List.replicate 65 0).length > 64 ∧
    QHidDevicePrivate.sendFeatureReport testDouble openSession [] 1 (List.replicate 65 0) =
      ⟨-1, openSession, []⟩ :=
  ⟨by decide,
   sendFeatureReport_rejects_oversized testDouble openSession [] 1 (List.replicate 65 0)
     (by decide)⟩

/-- C5: on a session that holds the handle a, a payload of n <= 64 bytes makes
sendFeatureReport issue exactly one transport call, hid_send_feature_report on a
with the buffer reportId followed by the payload and the length n + 1 (at most
65), and return the count the transport returns; the session is unchanged. -/
theorem sendFeatureReport_prepends_reportId (T : Transport) (d : QHidDevicePrivate)
    (tr : List Call) (reportId : Nat) (data : QByteArray) (a : Nat)
    (hd : d.m_device = some a) (hn : data.length ≤ 64) :
    (QHidDevicePrivate.sendFeatureReport T d tr reportId data).trace =
      tr ++ [Call.hid_send_feature_report (some a) (reportId :: data) (data.length + 1)] ∧
    (QHidDevicePrivate.sendFeatureReport T d tr reportId data).value =
      T.hid_send_feature_report tr (some a) (reportId :: data) (data.length + 1) ∧
    (QHidDevicePrivate.sendFeatureReport T d tr reportId data).self = d ∧
    data.length + 1 ≤ 65 := by
  have hlen : ¬ data.length > 64 := by omega
  simp [QHidDevicePrivate.sendFeatureReport, hd, hlen]
  omega

/-- Witness of C5: a payload of 64 bytes on the open sample session. -/
theorem sendFeatureReport_prepends_reportId_witness :
    openSession.m_device = some 7 ∧ (List.replicate 64 9).length ≤ 64 ∧
    (QHidDevicePrivate.sendFeatureReport testDouble openSession [] 2
        (List.replicate 64 9)).value = 65 :=
  ⟨rfl, by decide,
   (sendFeatureReport_prepends_reportId testDouble openSession [] 2 (List.replicate 64 9) 7
     rfl (by decide)).2.1⟩

/-- C6: on a session that holds the handle a, featureReport issues one transport
call, hid_get_feature_report on a with a buffer of 65 bytes whose first byte is
reportId modulo 256, and leaves the session unchanged.  When the transport reports
k bytes with 0 < k <= 65 (the buffer having 65 bytes) the result is the first k
bytes of the buffer and has length k; when it reports 0 or a negative count, -1
in particular, the result is empty. -/
theorem featureReport_returns_reported_bytes (T : Transport) (d : QHidDevicePrivate)
    (tr : List Call) (reportId : Nat) (a : Nat) (hd : d.m_device = some a) :
    (QHidDevicePrivate.featureReport T d tr reportId).trace =
      tr ++ [Call.hid_get_feature_report (some a) (reportId % 256) 65] ∧
    (QHidDevicePrivate.featureReport T d tr reportId).self = d ∧
    (0 < (T.hid_get_feature_report tr (some a) (reportId % 256) 65).1 →
      (T.hid_get_feature_report tr (some a) (reportId % 256) 65).1 ≤ 65 →
      (T.hid_get_feature_report tr (some a) (reportId % 256) 65).2.length = 65 →
      (QHidDevicePrivate.featureReport T d tr reportId).value =
        (T.hid_get_feature_report tr (some a) (reportId % 256) 65).2.take
          (T.hid_get_feature_report tr (some a) (reportId % 256) 65).1.toNat ∧
      (((QHidDevicePrivate.featureReport T d tr reportId).value.length : Nat) : Int) =
        (T.hid_get_feature_report tr (some a) (reportId % 256) 65).1) ∧
    ((T.hid_get_feature_report tr (some a) (reportId % 256) 65).1 ≤ 0 →
      (QHidDevicePrivate.featureReport T d tr reportId).value = []) := by
  generalize hr : T.hid_get_feature_report tr (some a) (reportId % 256) 65 = r
  obtain ⟨k, buf⟩ := r
  refine ⟨?_, ?_, ?_, ?_⟩
  · by_cases hk : k > 0 <;> simp [QHidDevicePrivate.featureReport, hd, hr, hk]
  · by_cases hk : k > 0 <;> simp [QHidDevicePrivate.featureReport, hd, hr, hk]
  · intro hpos hle hlen
    simp only at hpos hle hlen
    simp only [QHidDevicePrivate.featureReport, hd, hr]
    simp [hpos, hlen]
    omega
  · intro hle
    simp only at hle
    have : ¬ k > 0 := by omega
    simp [QHidDevicePrivate.featureReport, hd, hr, this]

/-- Witness of C6: the transport double reports 3 bytes in a buffer of 65. -/
theorem featureReport_returns_reported_bytes_witness :
    openSession.m_device = some 7 ∧
    (QHidDevicePrivate.featureReport testDouble openSession [] 0x105).value = [5, 10, 20] :=
  ⟨rfl,
   ((featureReport_returns_reported_bytes testDouble openSession [] 0x105 7 rfl).2.2.1
     (by decide) (by decide) (by decide)).1⟩

/-- C7, evaluated on the code: write(uint8_t*, quint64) has no length check.  On
the session that holds the handle 7, a report buffer of 66 bytes (payload of 65)
is passed to hid_write with the length 66, whatever the transport, and the result
is the count of the transport, 66 on the transport double, not -1.  The sibling
write(QByteArray) rejects the same buffer with -1 and without a transport call. -/
theorem write_forwards_oversized_report (T : Transport) :
    oversizedReport.length = 66 ∧ openSession.m_device = some 7 ∧
    (QHidDevicePrivate.write T openSession [] oversizedReport 66).trace =
      [Call.hid_write (some 7) oversizedReport 66] ∧
    (QHidDevicePrivate.write T openSession [] oversizedReport 66).value =
      T.hid_write [] (some 7) oversizedReport 66 ∧
    (QHidDevicePrivate.write testDouble openSession [] oversizedReport 66).value = 66 ∧
    (QHidDevicePrivate.write_bytes T openSession [] oversizedReport).value = -1 ∧
    (QHidDevicePrivate.write_bytes T openSession [] oversizedReport).trace = [] :=
  ⟨rfl, rfl, rfl, rfl, rfl, rfl, rfl⟩

/-- C8, evaluated on the code: the guard of manufacturerString is inverted.  On the
session without a handle it calls hid_get_manufacturer_string with the null
pointer, whatever the transport, and on the transport double it returns the text
ACME instead of the empty text.  The three siblings, on the same session, return
the empty text without a transport call. -/
theorem manufacturerString_calls_transport_without_handle (T : Transport) :
    closedSession.m_device = none ∧
    (QHidDevicePrivate.manufacturerString T closedSession []).trace =
      [Call.hid_get_manufacturer_string none 255] ∧
    (QHidDevicePrivate.manufacturerString testDouble closedSession []).value =
      [65, 67, 77, 69] ∧
    (QHidDevicePrivate.productString T closedSession []).value = [] ∧
    (QHidDevicePrivate.productString T closedSession []).trace = [] ∧
    (QHidDevicePrivate.serialNumberString T closedSession []).value = [] ∧
    (QHidDevicePrivate.serialNumberString T closedSession []).trace = [] ∧
    (QHidDevicePrivate.indexedString T closedSession [] 1).value = [] ∧
    (QHidDevicePrivate.indexedString T closedSession [] 1).trace = [] := by
  refine ⟨rfl, ?_, by decide, rfl, rfl, rfl, rfl, rfl, rfl⟩
  by_cases h : (T.hid_get_manufacturer_string [] none 255).1 = -1 <;>
    simp [QHidDevicePrivate.manufacturerString, closedSession, MAX_STR, h]

/-- C9, evaluated on the code: on the session that holds the handle 7,
manufacturerString returns the empty text without any transport call, whatever the
transport, although the transport double would report the status 0 and the text
ACME.  The sibling productString, on the same session, calls its getter once on
the handle 7 with 255 wide characters and returns ACME. -/
theorem manufacturerString_empty_with_handle (T : Transport) :
    openSession.m_device = some 7 ∧
    testDouble.hid_get_manufacturer_string [] (some 7) 255 = (0, [65, 67, 77, 69, 0]) ∧
    (QHidDevicePrivate.manufacturerString T openSession []).value = [] ∧
    (QHidDevicePrivate.manufacturerString T openSession []).trace = [] ∧
    (QHidDevicePrivate.productString testDouble openSession []).value = [65, 67, 77, 69] ∧
    (QHidDevicePrivate.productString testDouble openSession []).trace =
      [Call.hid_get_product_string (some 7) 255] := by
  refine ⟨rfl, rfl, rfl, rfl, by decide, by decide⟩

/-- C10, evaluated on the code: open(vendorId, productId, serialNumber) stores the
vendor and product identifiers but never assigns mSerialNumber.  After
open(0x1234, 0x5678, SN) on a session whose stored serial number is empty, the
stored serial number is still empty, and the open() that follows asks the transport
for 0x1234, 0x5678 with a null serial number, not with SN. -/
theorem open_ids_drops_serialNumber :
    identityOpen.value = true ∧
    identityOpen.trace = [Call.hid_open 0x1234 0x5678 (some [83, 78, 0])] ∧
    identityOpen.self.mVendorId = 0x1234 ∧ identityOpen.self.mProductId = 0x5678 ∧
    identityOpen.self.mSerialNumber = [] ∧
    identityReopen.trace =
      [Call.hid_open 0x1234 0x5678 (some [83, 78, 0]), Call.hid_close (some 1),
       Call.hid_open 0x1234 0x5678 none] := by
  decide

/-! ### Constructed sessions, blocking mode and the facade -/

/-- The loop of enumerate appends one record per node, in order, and ends with the
null pointer. -/
theorem enumerateLoop_eq (P : Platform) (l : List hid_device_info)
    (acc : List QHidDeviceInfo) :
    QHidDevicePrivate.enumerateLoop P l acc =
      (acc ++ l.map (QHidDevicePrivate.enumerateRecord P), []) := by
  induction l generalizing acc with
  | nil => simp [QHidDevicePrivate.enumerateLoop]
  | cons info next ih => simp [QHidDevicePrivate.enumerateLoop, ih]

/-- C11, counterexample: a session constructed with vendor 0 and product 0 and
never opened by identity, on the transport double.  The open() that follows calls
hid_open(0, 0, NULL), returns true and holds the handle 3 that the transport
returned: it neither returns false nor leaves the handle absent. -/
theorem open_stored_without_identity_succeeds :
    anonymousSession.1.mVendorId = 0 ∧ anonymousSession.1.mProductId = 0 ∧
    anonymousSession.1.mSerialNumber = [] ∧ anonymousSession.1.m_device = none ∧
    anonymousOpen.trace =
      [Call.hid_enumerate 0 0, Call.hid_free_enumeration [], Call.hid_open 0 0 none] ∧
    anonymousOpen.value = true ∧ anonymousOpen.self.m_device = some 3 ∧
    ¬ (anonymousOpen.value = false ∧ anonymousOpen.self.m_device = none) := by
  decide

/-- No member of the session other than the open by identity changes the stored
identity. -/
theorem sessionStep_identity (T : Transport) (toLocal8Bit : QString → QByteArray)
    (s : QHidDevicePrivate × List Call) (op : SessionOp) :
    (sessionStep T toLocal8Bit s op).1.mVendorId = s.1.mVendorId ∧
    (sessionStep T toLocal8Bit s op).1.mProductId = s.1.mProductId ∧
    (sessionStep T toLocal8Bit s op).1.mSerialNumber = s.1.mSerialNumber := by
  cases op <;>
    simp only [sessionStep, QHidDevicePrivate.open_path, QHidDevicePrivate.open_stored,
      QHidDevicePrivate.closeHeld, QHidDevicePrivate.close, QHidDevicePrivate.read,
      QHidDevicePrivate.read_timeout, QHidDevicePrivate.write,
      QHidDevicePrivate.write_report, QHidDevicePrivate.write_bytes,
      QHidDevicePrivate.featureReport, QHidDevicePrivate.sendFeatureReport,
      QHidDevicePrivate.manufacturerString, QHidDevicePrivate.productString,
      QHidDevicePrivate.serialNumberString, QHidDevicePrivate.indexedString,
      QHidDevicePrivate.error, QHidDevicePrivate.setBlocking,
      QHidDevicePrivate.setNonBlocking] <;>
    repeat (first | split | simp)

/-- A sequence of calls of members other than the open by identity leaves the
stored identity as it was. -/
theorem sessionRun_identity (T : Transport) (toLocal8Bit : QString → QByteArray)
    (ops : List SessionOp) (s : QHidDevicePrivate × List Call) :
    (sessionRun T toLocal8Bit s ops).1.mVendorId = s.1.mVendorId ∧
    (sessionRun T toLocal8Bit s ops).1.mProductId = s.1.mProductId ∧
    (sessionRun T toLocal8Bit s ops).1.mSerialNumber = s.1.mSerialNumber := by
  induction ops generalizing s with
  | nil => simp [sessionRun]
  | cons op ops ih =>
      have h1 := ih (sessionStep T toLocal8Bit s op)
      have h2 := sessionStep_identity T toLocal8Bit s op
      simp only [sessionRun]
      exact ⟨h1.1.trans h2.1, h1.2.1.trans h2.2.1, h1.2.2.trans h2.2.2⟩

/-- On a session whose stored identity is vendor 0, product 0 and no serial number,
open() closes a held handle and calls hid_open(0, 0, NULL); its outcome is that of
the transport. -/
theorem open_stored_of_zero_identity (T : Transport) (d : QHidDevicePrivate)
    (tr : List Call) (hv : d.mVendorId = 0) (hp : d.mProductId = 0)
    (hs : d.mSerialNumber = []) :
    (QHidDevicePrivate.open_stored T d tr).trace =
      tr ++ closeCalls d.m_device ++ [Call.hid_open 0 0 none] ∧
    (QHidDevicePrivate.open_stored T d tr).self.m_device =
      T.hid_open (tr ++ closeCalls d.m_device) 0 0 none ∧
    (QHidDevicePrivate.open_stored T d tr).value =
      (T.hid_open (tr ++ closeCalls d.m_device) 0 0 none).isSome := by
  cases hd : d.m_device <;>
    simp [QHidDevicePrivate.open_stored, QHidDevicePrivate.closeHeld, closeCalls, hd, hv,
      hp, hs] <;>
    generalize T.hid_open _ _ _ _ = r <;> cases r <;> simp [hd]

/-- C11, as amended: take a session constructed with vendor 0 and product 0, on any
platform and transport, and any sequence of calls of its members other than the
open by identity (so that no identity has ever been set), in whatever state this
leaves it.  The open() that follows makes one hid_close call on the held handle if
there is one, then the call hid_open(0, 0, NULL); the session then holds the
pointer the transport returned, and the result is true when that pointer is a
handle and false, with the handle absent, exactly when it is null.  Straight after
the construction no handle is held and hid_open(0, 0, NULL) is the only call. -/
theorem open_stored_without_identity (P : Platform) (T : Transport)
    (toLocal8Bit : QString → QByteArray) (tr : List Call) (ops : List SessionOp) :
    ((QHidDevicePrivate.open_stored T
        (sessionRun T toLocal8Bit (QHidDevicePrivate.ctor P T tr 0 0) ops).1
        (sessionRun T toLocal8Bit (QHidDevicePrivate.ctor P T tr 0 0) ops).2).trace =
      (sessionRun T toLocal8Bit (QHidDevicePrivate.ctor P T tr 0 0) ops).2 ++
        closeCalls (sessionRun T toLocal8Bit (QHidDevicePrivate.ctor P T tr 0 0) ops).1.m_device
        ++ [Call.hid_open 0 0 none] ∧
     (QHidDevicePrivate.open_stored T
        (sessionRun T toLocal8Bit (QHidDevicePrivate.ctor P T tr 0 0) ops).1
        (sessionRun T toLocal8Bit (QHidDevicePrivate.ctor P T tr 0 0) ops).2).self.m_device =
      T.hid_open
        ((sessionRun T toLocal8Bit (QHidDevicePrivate.ctor P T tr 0 0) ops).2 ++
          closeCalls
            (sessionRun T toLocal8Bit (QHidDevicePrivate.ctor P T tr 0 0) ops).1.m_device)
        0 0 none ∧
     (QHidDevicePrivate.open_stored T
        (sessionRun T toLocal8Bit (QHidDevicePrivate.ctor P T tr 0 0) ops).1
        (sessionRun T toLocal8Bit (QHidDevicePrivate.ctor P T tr 0 0) ops).2).value =
      (T.hid_open
        ((sessionRun T toLocal8Bit (QHidDevicePrivate.ctor P T tr 0 0) ops).2 ++
          closeCalls
            (sessionRun T toLocal8Bit (QHidDevicePrivate.ctor P T tr 0 0) ops).1.m_device)
        0 0 none).isSome) ∧
    ((QHidDevicePrivate.ctor P T tr 0 0).1.m_device = none ∧
     (QHidDevicePrivate.open_stored T (QHidDevicePrivate.ctor P T tr 0 0).1
        (QHidDevicePrivate.ctor P T tr 0 0).2).trace =
      (QHidDevicePrivate.ctor P T tr 0 0).2 ++ [Call.hid_open 0 0 none] ∧
     (QHidDevicePrivate.open_stored T (QHidDevicePrivate.ctor P T tr 0 0).1
        (QHidDevicePrivate.ctor P T tr 0 0).2).self.m_device =
      T.hid_open (QHidDevicePrivate.ctor P T tr 0 0).2 0 0 none ∧
     (QHidDevicePrivate.open_stored T (QHidDevicePrivate.ctor P T tr 0 0).1
        (QHidDevicePrivate.ctor P T tr 0 0).2).value =
      (T.hid_open (QHidDevicePrivate.ctor P T tr 0 0).2 0 0 none).isSome) := by
  have hid := sessionRun_identity T toLocal8Bit ops (QHidDevicePrivate.ctor P T tr 0 0)
  have hc : (QHidDevicePrivate.ctor P T tr 0 0).1.mVendorId = 0 ∧
      (QHidDevicePrivate.ctor P T tr 0 0).1.mProductId = 0 ∧
      (QHidDevicePrivate.ctor P T tr 0 0).1.mSerialNumber = [] ∧
      (QHidDevicePrivate.ctor P T tr 0 0).1.m_device = none := ⟨rfl, rfl, rfl, rfl⟩
  refine ⟨?_, hc.2.2.2, ?_⟩
  · exact open_stored_of_zero_identity T _ _ (hid.1.trans hc.1) (hid.2.1.trans hc.2.1)
      (hid.2.2.trans hc.2.2.1)
  · have h := open_stored_of_zero_identity T (QHidDevicePrivate.ctor P T tr 0 0).1
      (QHidDevicePrivate.ctor P T tr 0 0).2 hc.1 hc.2.1 hc.2.2.1
    rw [hc.2.2.2] at h
    simpa [closeCalls] using h

/-- C11 as amended, on an example: the session constructed with vendor 0 and
product 0 and opened by the path /a holds the handle 3; the open() that follows
calls hid_close on it and then hid_open(0, 0, NULL), and returns true. -/
theorem open_stored_without_identity_example :
    anonymousOpenedByPath.1.m_device = some 3 ∧
    (QHidDevicePrivate.open_stored testDouble anonymousOpenedByPath.1
        anonymousOpenedByPath.2).trace =
      [Call.hid_enumerate 0 0, Call.hid_free_enumeration [], Call.hid_open_path [47, 97],
       Call.hid_close (some 3), Call.hid_open 0 0 none] ∧
    (QHidDevicePrivate.open_stored testDouble anonymousOpenedByPath.1
        anonymousOpenedByPath.2).value = true := by
  decide

/-- C12, evaluated on the code: on the session that holds the handle 7,
setBlocking() calls hid_set_nonblocking with the flag 1 (non-blocking) and
setNonBlocking() calls it with the flag 0 (blocking), whatever the transport, and
each returns whether the status differs from 0: false on the transport double,
which reports success (0), and true on the double that reports the error -1. -/
theorem setBlocking_flag_and_result_inverted (T : Transport) :
    openSession.m_device = some 7 ∧
    (QHidDevicePrivate.setBlocking T openSession []).trace =
      [Call.hid_set_nonblocking (some 7) 1] ∧
    (QHidDevicePrivate.setNonBlocking T openSession []).trace =
      [Call.hid_set_nonblocking (some 7) 0] ∧
    testDouble.hid_set_nonblocking [] (some 7) 1 = 0 ∧
    (QHidDevicePrivate.setBlocking testDouble openSession []).value = false ∧
    (QHidDevicePrivate.setNonBlocking testDouble openSession []).value = false ∧
    errorDouble.hid_set_nonblocking [] (some 7) 1 = -1 ∧
    (QHidDevicePrivate.setBlocking errorDouble openSession []).value = true ∧
    (QHidDevicePrivate.setNonBlocking errorDouble openSession []).value = true :=
  ⟨rfl, rfl, rfl, rfl, by decide, by decide, rfl, by decide, by decide⟩

/-- C13, evaluated on the code: each facade open overload returns false in every
state and for all arguments, also when the session open it delegates to
succeeds.  On the sample facade and the transport double the session open(/a)
returns true and obtains the handle 3, and the facade open(/a) returns false. -/
theorem facade_open_returns_false (T : Transport) (toLocal8Bit : QString → QByteArray)
    (q : QHidDevice) (tr : List Call) (vendorId productId : Nat) (serialNumber : QString)
    (path : QString) (mode : Nat) :
    (QHidDevice.open_ids T q tr vendorId productId serialNumber).value = false ∧
    (QHidDevice.open_path T toLocal8Bit q tr path).value = false ∧
    (QHidDevice.open_mode T q tr mode).value = false ∧
    (QHidDevicePrivate.open_path testDouble id sampleFacade.1.d_ptr sampleFacade.2
      [47, 97]).value = true ∧
    facadeOpenPath.self.d_ptr.m_device = some 3 ∧
    facadeOpenPath.value = false := by
  refine ⟨?_, ?_, ?_, by decide, by decide, by decide⟩
  · simp only [QHidDevice.open_ids]
    split <;> rfl
  · simp only [QHidDevice.open_path]
    split <;> rfl
  · simp only [QHidDevice.open_mode]
    split <;> rfl

/-- C14, counterexample: on the sample facade and the transport double the session
open() behind open(ReadOnly) succeeds, and the stream state becomes ReadOnly, not
ReadWrite. -/
theorem open_mode_keeps_requested_mode :
    (QHidDevicePrivate.open_stored testDouble sampleFacade.1.d_ptr sampleFacade.2).value
      = true ∧
    facadeOpenReadOnly.self.openMode = QHidDevice.ReadOnly ∧
    facadeOpenReadOnly.self.openMode ≠ QHidDevice.ReadWrite := by
  decide

/-- C14, as amended: when the delegated session open succeeds, the facade calls
open(vendorId, productId, serialNumber) and open(path) set the stream state to
ReadWrite and the facade call open(mode) sets it to the mode argument; the facade
close() makes the calls of the session close() and sets the stream state to
NotOpen. -/
theorem facade_open_mode_transitions (T : Transport) (toLocal8Bit : QString → QByteArray)
    (q : QHidDevice) (tr : List Call) (vendorId productId : Nat) (serialNumber : QString)
    (path : QString) (mode : Nat) :
    ((QHidDevicePrivate.open_ids T q.d_ptr tr vendorId productId serialNumber).value = true →
      (QHidDevice.open_ids T q tr vendorId productId serialNumber).self.openMode =
        QHidDevice.ReadWrite) ∧
    ((QHidDevicePrivate.open_path T toLocal8Bit q.d_ptr tr path).value = true →
      (QHidDevice.open_path T toLocal8Bit q tr path).self.openMode = QHidDevice.ReadWrite) ∧
    ((QHidDevicePrivate.open_stored T q.d_ptr tr).value = true →
      (QHidDevice.open_mode T q tr mode).self.openMode = mode) ∧
    (QHidDevice.close q tr).self.openMode = QHidDevice.NotOpen ∧
    (QHidDevice.close q tr).self.d_ptr = (QHidDevicePrivate.close q.d_ptr tr).self ∧
    (QHidDevice.close q tr).trace = (QHidDevicePrivate.close q.d_ptr tr).trace := by
  refine ⟨?_, ?_, ?_, rfl, rfl, rfl⟩
  · intro h
    simp [QHidDevice.open_ids, QHidDevice.setOpenMode, h]
  · intro h
    simp [QHidDevice.open_path, QHidDevice.setOpenMode, h]
  · intro h
    simp [QHidDevice.open_mode, QHidDevice.setOpenMode, h]

/-- Witness of C14 as amended: open(WriteOnly) on the sample facade. -/
theorem facade_open_mode_transitions_witness :
    (QHidDevicePrivate.open_stored testDouble sampleFacade.1.d_ptr sampleFacade.2).value
      = true ∧
    (QHidDevice.open_mode testDouble sampleFacade.1 sampleFacade.2
      QHidDevice.WriteOnly).self.openMode = QHidDevice.WriteOnly :=
  ⟨by decide,
   (facade_open_mode_transitions testDouble id sampleFacade.1 sampleFacade.2 1 2 [] [47]
     QHidDevice.WriteOnly).2.2.1 (by decide)⟩

/-- C15, evaluated on the code: on every platform and transport and for all
filters, enumerate calls hid_free_enumeration once, with the null pointer that the
loop ended on, not with the list the transport returned.  On the double with one
device attached the list has one node, which is never passed to
hid_free_enumeration. -/
theorem enumerate_frees_null_pointer (P : Platform) (T : Transport) (tr : List Call)
    (vendorId productId : Nat) :
    (QHidDevicePrivate.enumerate P T tr vendorId productId).2 =
      tr ++ [Call.hid_enumerate vendorId productId, Call.hid_free_enumeration []] ∧
    enumDouble.hid_enumerate [] 0 0 = [sampleNode] ∧
    (QHidDevicePrivate.enumerate samplePlatform enumDouble [] 0 0).2 =
      [Call.hid_enumerate 0 0, Call.hid_free_enumeration []] ∧
    Call.hid_free_enumeration [sampleNode] ∉
      (QHidDevicePrivate.enumerate samplePlatform enumDouble [] 0 0).2 := by
  have h : ∀ (P : Platform) (T : Transport) (tr : List Call) (v p : Nat),
      (QHidDevicePrivate.enumerate P T tr v p).2 =
        tr ++ [Call.hid_enumerate v p, Call.hid_free_enumeration []] := by
    intro P T tr v p
    simp [QHidDevicePrivate.enumerate, enumerateLoop_eq]
  refine ⟨h P T tr vendorId productId, rfl, ?_, ?_⟩
  · simpa using h samplePlatform enumDouble [] 0 0
  · rw [h samplePlatform enumDouble [] 0 0]
    decide

/-- C16: for all filters, on every platform and transport, enumerate first calls
hid_enumerate with exactly the two filters and returns one record per node of the
list the transport returned, in list order; the record of a node carries its path
(converted to text), vendor and product identifiers, manufacturer, product and
serial strings (decoded), release number and interface number.  The result has
the length of the transport list and is empty exactly when that list is empty.
The static member of the facade returns the same. -/
theorem enumerate_one_record_per_node (P : Platform) (T : Transport) (tr : List Call)
    (vendorId productId : Nat) :
    (QHidDevicePrivate.enumerate P T tr vendorId productId).2 =
      tr ++ [Call.hid_enumerate vendorId productId, Call.hid_free_enumeration []] ∧
    (QHidDevicePrivate.enumerate P T tr vendorId productId).1 =
      (T.hid_enumerate tr vendorId productId).map (QHidDevicePrivate.enumerateRecord P) ∧
    (∀ info : hid_device_info,
      (QHidDevicePrivate.enumerateRecord P info).path = P.fromChars info.path ∧
      (QHidDevicePrivate.enumerateRecord P info).vendorId = info.vendor_id ∧
      (QHidDevicePrivate.enumerateRecord P info).productId = info.product_id ∧
      (QHidDevicePrivate.enumerateRecord P info).manufacturerString =
        fromWCharArray info.manufacturer_string ∧
      (QHidDevicePrivate.enumerateRecord P info).productString =
        fromWCharArray info.product_string ∧
      (QHidDevicePrivate.enumerateRecord P info).serialNumber =
        fromWCharArray info.serial_number ∧
      (QHidDevicePrivate.enumerateRecord P info).releaseNumber = info.release_number ∧
      (QHidDevicePrivate.enumerateRecord P info).interfaceNumber = info.interface_number) ∧
    (QHidDevicePrivate.enumerate P T tr vendorId productId).1.length =
      (T.hid_enumerate tr vendorId productId).length ∧
    ((QHidDevicePrivate.enumerate P T tr vendorId productId).1 = [] ↔
      T.hid_enumerate tr vendorId productId = []) ∧
    QHidDevice.enumerate P T tr vendorId productId =
      QHidDevicePrivate.enumerate P T tr vendorId productId := by
  have hv : (QHidDevicePrivate.enumerate P T tr vendorId productId).1 =
      (T.hid_enumerate tr vendorId productId).map (QHidDevicePrivate.enumerateRecord P) := by
    simp [QHidDevicePrivate.enumerate, enumerateLoop_eq]
  refine ⟨?_, hv, ?_, ?_, ?_, rfl⟩
  · simp [QHidDevicePrivate.enumerate, enumerateLoop_eq]
  · intro info
    cases hu : P.usageTables <;> simp [QHidDevicePrivate.enumerateRecord, hu]
  · rw [hv, List.length_map]
  · rw [hv]
    exact List.map_eq_nil_iff

/-- C17, counterexample: two calls of init() in succession, the flag being false
before, invoke hid_init twice. -/
theorem init_twice_invokes_hid_init_twice :
    initTwice.trace = [Call.hid_init, Call.hid_init] ∧
    initTwice.trace ≠ [Call.hid_init] := by
  decide

/-- C17, as amended: init() sets the flag and invokes hid_init on every call,
whatever the flag, and returns the status of the transport, so that two calls in
succession invoke hid_init twice; exit() is guarded by the flag: while the flag is
false it returns 0 without a transport call, and once it is set it invokes
hid_exit and returns its status. -/
theorem init_unguarded_exit_guarded (T : Transport) (is_init : Bool) (tr : List Call) :
    QHidDevice.init T is_init tr = ⟨T.hid_init tr, true, tr ++ [Call.hid_init]⟩ ∧
    QHidDevice.init T (QHidDevice.init T is_init tr).is_init
        (QHidDevice.init T is_init tr).trace =
      ⟨T.hid_init (tr ++ [Call.hid_init]), true, tr ++ [Call.hid_init, Call.hid_init]⟩ ∧
    QHidDevice.exit T false tr = ⟨0, false, tr⟩ ∧
    QHidDevice.exit T true tr = ⟨T.hid_exit tr, true, tr ++ [Call.hid_exit]⟩ := by
  simp [QHidDevice.init, QHidDevice.exit]

/-- C18, evaluated on the code: the destructor of the facade has an empty body and
does not delete the session.  The sample facade opens /a and obtains the handle
3; its destruction makes no transport call, so the trace holds no hid_close and
the handle is never released, although the destructor of the session, had it run,
would have closed it.  On the session side, after open(), write and close() the
member m_device still holds the handle 1, so the destructor of the session calls
hid_close on it a second time. -/
theorem facade_teardown_leaks_handle :
    facadeOpenPath.self.d_ptr.m_device = some 3 ∧
    facadeTeardown =
      [Call.hid_enumerate 0x4d8 0xf1fa, Call.hid_free_enumeration [],
       Call.hid_open_path [47, 97]] ∧
    closeCallsOf facadeTeardown = [] ∧
    QHidDevicePrivate.dtor facadeOpenPath.self.d_ptr facadeOpenPath.trace =
      facadeOpenPath.trace ++ [Call.hid_close (some 3)] ∧
    QHidDevicePrivate.dtor closedSession [] = [] ∧
    closeCallsOf (QHidDevicePrivate.dtor scenarioClose.self scenarioClose.trace) =
      [Call.hid_close (some 1), Call.hid_close (some 1)] := by
  decide

/-! ### The stream state of the facade and the handle of the session -/

/-- A session open(path) that returns true leaves a handle in the session, and one
that returns false leaves none. -/
theorem session_open_path_handle (T : Transport) (toLocal8Bit : QString → QByteArray)
    (d : QHidDevicePrivate) (tr : List Call) (path : QString) :
    ((QHidDevicePrivate.open_path T toLocal8Bit d tr path).value = true →
      (QHidDevicePrivate.open_path T toLocal8Bit d tr path).self.m_device ≠ none) ∧
    ((QHidDevicePrivate.open_path T toLocal8Bit d tr path).value = false →
      (QHidDevicePrivate.open_path T toLocal8Bit d tr path).self.m_device = none) := by
  cases hd : d.m_device <;>
    simp [QHidDevicePrivate.open_path, QHidDevicePrivate.closeHeld, hd] <;>
    generalize T.hid_open_path _ _ = r <;> cases r <;> simp [hd]

/-- A session open by identity that returns true leaves a handle in the session,
and one that returns false leaves none. -/
theorem session_open_ids_handle (T : Transport) (d : QHidDevicePrivate) (tr : List Call)
    (vendorId productId : Nat) (serialNumber : QString) :
    ((QHidDevicePrivate.open_ids T d tr vendorId productId serialNumber).value = true →
      (QHidDevicePrivate.open_ids T d tr vendorId productId serialNumber).self.m_device
        ≠ none) ∧
    ((QHidDevicePrivate.open_ids T d tr vendorId productId serialNumber).value = false →
      (QHidDevicePrivate.open_ids T d tr vendorId productId serialNumber).self.m_device
        = none) := by
  cases hd : d.m_device <;> cases hs : serialNumber <;>
    simp [QHidDevicePrivate.open_ids, QHidDevicePrivate.closeHeld, hd] <;>
    generalize T.hid_open _ _ _ _ = r <;> cases r <;> simp [hd]

/-- A session open() that returns true leaves a handle in the session, and one that
returns false leaves none. -/
theorem session_open_stored_handle (T : Transport) (d : QHidDevicePrivate)
    (tr : List Call) :
    ((QHidDevicePrivate.open_stored T d tr).value = true →
      (QHidDevicePrivate.open_stored T d tr).self.m_device ≠ none) ∧
    ((QHidDevicePrivate.open_stored T d tr).value = false →
      (QHidDevicePrivate.open_stored T d tr).self.m_device = none) := by
  cases hd : d.m_device <;> cases hs : d.mSerialNumber <;>
    simp [QHidDevicePrivate.open_stored, QHidDevicePrivate.closeHeld, hd, hs] <;>
    generalize T.hid_open _ _ _ _ = r <;> cases r <;> simp [hd]

/-- A facade call whose delegated session open fails leaves the stream state as it
was and the session without a handle. -/
theorem facadeStep_failed_open (T : Transport) (toLocal8Bit : QString → QByteArray)
    (s : QHidDevice × List Call) (op : FacadeOp)
    (h : delegatedSuccess T toLocal8Bit s op = false) :
    (facadeStep T toLocal8Bit s op).1.openMode = s.1.openMode ∧
    (facadeStep T toLocal8Bit s op).1.d_ptr.m_device = none := by
  cases op with
  | open_ids v p sn =>
      simp only [delegatedSuccess] at h
      have hm := (session_open_ids_handle T s.1.d_ptr s.2 v p sn).2 h
      simp [facadeStep, QHidDevice.open_ids, h, hm]
  | open_path path =>
      simp only [delegatedSuccess] at h
      have hm := (session_open_path_handle T toLocal8Bit s.1.d_ptr s.2 path).2 h
      simp [facadeStep, QHidDevice.open_path, h, hm]
  | open_mode mode =>
      simp only [delegatedSuccess] at h
      have hm := (session_open_stored_handle T s.1.d_ptr s.2).2 h
      simp [facadeStep, QHidDevice.open_mode, h, hm]
  | close => simp [delegatedSuccess] at h

/-- One facade call keeps the consistency of stream state and handle, unless it is
an open that fails while the stream state is open. -/
theorem facadeStep_consistent (T : Transport) (toLocal8Bit : QString → QByteArray)
    (s : QHidDevice × List Call) (op : FacadeOp)
    (h : s.1.openMode = QHidDevice.NotOpen ∨ delegatedSuccess T toLocal8Bit s op = true) :
    (facadeStep T toLocal8Bit s op).1.openMode ≠ QHidDevice.NotOpen →
      (facadeStep T toLocal8Bit s op).1.d_ptr.m_device ≠ none := by
  by_cases hs : delegatedSuccess T toLocal8Bit s op = true
  · cases op with
    | open_ids v p sn =>
        simp only [delegatedSuccess] at hs
        have hm := (session_open_ids_handle T s.1.d_ptr s.2 v p sn).1 hs
        intro _
        simpa [facadeStep, QHidDevice.open_ids, QHidDevice.setOpenMode, hs] using hm
    | open_path path =>
        simp only [delegatedSuccess] at hs
        have hm := (session_open_path_handle T toLocal8Bit s.1.d_ptr s.2 path).1 hs
        intro _
        simpa [facadeStep, QHidDevice.open_path, QHidDevice.setOpenMode, hs] using hm
    | open_mode mode =>
        simp only [delegatedSuccess] at hs
        have hm := (session_open_stored_handle T s.1.d_ptr s.2).1 hs
        intro _
        simpa [facadeStep, QHidDevice.open_mode, QHidDevice.setOpenMode, hs] using hm
    | close =>
        intro hne
        exact absurd (by simp [facadeStep, QHidDevice.close, QHidDevice.setOpenMode]) hne
  · have hf : delegatedSuccess T toLocal8Bit s op = false := by
      cases hv : delegatedSuccess T toLocal8Bit s op
      · rfl
      · exact absurd hv hs
    have hmode : s.1.openMode = QHidDevice.NotOpen := by
      cases h with
      | inl h0 => exact h0
      | inr h1 => exact absurd h1 hs
    intro hne
    exact absurd ((facadeStep_failed_open T toLocal8Bit s op hf).1.trans hmode) hne

/-- A sequence of facade calls keeps the consistency of stream state and handle
when none of its opens fails while the stream state is open. -/
theorem facadeRun_consistent (T : Transport) (toLocal8Bit : QString → QByteArray)
    (ops : List FacadeOp) (s : QHidDevice × List Call)
    (h0 : s.1.openMode ≠ QHidDevice.NotOpen → s.1.d_ptr.m_device ≠ none)
    (h : noFailedOpenWhileOpen T toLocal8Bit s ops = true) :
    (facadeRun T toLocal8Bit s ops).1.openMode ≠ QHidDevice.NotOpen →
      (facadeRun T toLocal8Bit s ops).1.d_ptr.m_device ≠ none := by
  induction ops generalizing s with
  | nil => simpa [facadeRun] using h0
  | cons op ops ih =>
      simp only [noFailedOpenWhileOpen, Bool.and_eq_true, Bool.or_eq_true,
        decide_eq_true_eq] at h
      simp only [facadeRun]
      exact ih (facadeStep T toLocal8Bit s op)
        (facadeStep_consistent T toLocal8Bit s op h.1) h.2

/-- C19, evaluated on the code: a facade constructed on the double on which only /a
can be opened; open(/a) succeeds and open(/b) fails.  The failed open has closed
the handle of /a and left the stream state untouched: in the state reached the
stream state is ReadWrite, which differs from NotOpen, and the session holds no
handle. -/
theorem failed_reopen_leaves_stream_open :
    failedReopen.1.openMode = QHidDevice.ReadWrite ∧
    failedReopen.1.openMode ≠ QHidDevice.NotOpen ∧
    failedReopen.1.d_ptr.m_device = none := by
  decide

/-- The consistency that the facade does keep: in every state reached from a
freshly constructed facade (by any of the three constructors) through a sequence of
facade open and close calls in which no open fails while the stream state is open,
the stream state is open only if the session holds a handle.  A facade open whose
delegated session open fails leaves the stream state as it was and the session
without a handle. -/
theorem stream_open_implies_handle (P : Platform) (T : Transport)
    (toLocal8Bit : QString → QByteArray) (is_init : Bool) (tr : List Call)
    (vendorId productId : Nat) (ops : List FacadeOp) :
    (noFailedOpenWhileOpen T toLocal8Bit
        ((QHidDevice.ctor P T is_init tr).1, (QHidDevice.ctor P T is_init tr).2.2) ops = true →
      (facadeRun T toLocal8Bit
        ((QHidDevice.ctor P T is_init tr).1, (QHidDevice.ctor P T is_init tr).2.2)
        ops).1.openMode ≠ QHidDevice.NotOpen →
      (facadeRun T toLocal8Bit
        ((QHidDevice.ctor P T is_init tr).1, (QHidDevice.ctor P T is_init tr).2.2)
        ops).1.d_ptr.m_device ≠ none) ∧
    (noFailedOpenWhileOpen T toLocal8Bit (QHidDevice.ctor_vendor P T tr vendorId) ops = true →
      (facadeRun T toLocal8Bit (QHidDevice.ctor_vendor P T tr vendorId) ops).1.openMode
        ≠ QHidDevice.NotOpen →
      (facadeRun T toLocal8Bit (QHidDevice.ctor_vendor P T tr vendorId) ops).1.d_ptr.m_device
        ≠ none) ∧
    (noFailedOpenWhileOpen T toLocal8Bit
        (QHidDevice.ctor_vendor_product P T tr vendorId productId) ops = true →
      (facadeRun T toLocal8Bit
        (QHidDevice.ctor_vendor_product P T tr vendorId productId) ops).1.openMode
        ≠ QHidDevice.NotOpen →
      (facadeRun T toLocal8Bit
        (QHidDevice.ctor_vendor_product P T tr vendorId productId) ops).1.d_ptr.m_device
        ≠ none) ∧
    (∀ (s : QHidDevice × List Call) (op : FacadeOp),
      delegatedSuccess T toLocal8Bit s op = false →
      (facadeStep T toLocal8Bit s op).1.openMode = s.1.openMode ∧
      (facadeStep T toLocal8Bit s op).1.d_ptr.m_device = none) := by
  refine ⟨?_, ?_, ?_, ?_⟩
  · intro h
    exact facadeRun_consistent T toLocal8Bit ops _
      (fun hne => absurd rfl hne) h
  · intro h
    exact facadeRun_consistent T toLocal8Bit ops _
      (fun hne => absurd rfl hne) h
  · intro h
    exact facadeRun_consistent T toLocal8Bit ops _
      (fun hne => absurd rfl hne) h
  · intro s op h
    exact facadeStep_failed_open T toLocal8Bit s op h

/-- The consistency of the facade on an example: open(/a), close(), open(ReadOnly)
on the sample facade and the transport double, where every open succeeds; and the
failing open(/b) on the double on which only /a can be opened. -/
theorem stream_open_implies_handle_witness :
    noFailedOpenWhileOpen testDouble id sampleFacade sampleOps = true ∧
    ((facadeRun testDouble id sampleFacade sampleOps).1.openMode ≠ QHidDevice.NotOpen →
      (facadeRun testDouble id sampleFacade sampleOps).1.d_ptr.m_device ≠ none) ∧
    delegatedSuccess pathDouble id sampleFacade (FacadeOp.open_path [47, 98]) = false ∧
    (facadeStep pathDouble id sampleFacade (FacadeOp.open_path [47, 98])).1.openMode =
      sampleFacade.1.openMode :=
  ⟨by decide,
   (stream_open_implies_handle samplePlatform testDouble id false [] 0x4d8 0xf1fa
     sampleOps).2.2.1 (by decide),
   by decide,
   ((stream_open_implies_handle samplePlatform pathDouble id false [] 0x4d8 0xf1fa
     sampleOps).2.2.2 sampleFacade (FacadeOp.open_path [47, 98]) (by decide)).1⟩

end QHidApi
